import Mathlib

/-!
Verification of the vote-cache core of the `toppy` repository
(`src/toppy/webhook/cache.py`).

The module is shallowly embedded: the filesystem state touched by the
cache (the `toppy_vote_cache` root directory, the counter file
`number.txt`, the document file `votes.json` and the relational table in
`votes.db`) is an explicit `FS` value, each database operation is a pure
function from the old state to the new state together with an
`Except PyErr` result, and Python exceptions become `PyErr` values.
`votes.json` is modelled by the JSON value it holds (`JVal`); the raw
text of the file is `dumps` of that value, which is what `json.loads`
returns when the file is read back.
-/

/-- Python exceptions raised by the code paths modelled here. -/
inductive PyErr where
  | valueError            -- int('') and friends
  | unsupportedOperation  -- write on a file opened in read mode
  | fileNotFoundError     -- opening a missing file in read mode
  | attributeError        -- attribute access on a value lacking it
  | typeError             -- unsupported operand type
  | indexError            -- sequence index out of range
  | integrityError        -- sqlite UNIQUE / PRIMARY KEY violation
  | operationalError      -- sqlite missing-table and similar failures
deriving DecidableEq, Repr

/-- JSON values as stored in `votes.json`.  Only the constructors the
cache can actually produce are needed: numbers, strings and arrays. -/
inductive JVal where
  | jnum (n : Int)
  | jstr (s : String)
  | jarr (l : List JVal)

/-- Escape of one character inside a JSON string literal, as
`json.dumps` performs it for the characters the cache stores. -/
def escapeJsonChar (c : Char) : String :=
  if c = '"' then "\\\""
  else if c = '\\' then "\\\\"
  else String.singleton c

/-- Escape of a whole string for inclusion in a JSON string literal. -/
def escapeJson (s : String) : String :=
  String.join (s.toList.map escapeJsonChar)

mutual

/-- `json.dumps` (default separators) for the values the cache writes. -/
def dumps : JVal → String
  | .jnum n => toString n
  | .jstr s => "\"" ++ escapeJson s ++ "\""
  | .jarr l => "[" ++ String.intercalate ", " (dumpsList l) ++ "]"

/-- Serialisations of the elements of a JSON array. -/
def dumpsList : List JVal → List String
  | [] => []
  | v :: vs => dumps v :: dumpsList vs

end

/-- Accumulate the value of a run of decimal digits; `none` when a
non-digit character occurs. -/
def digitsToNatAux : List Char → Nat → Option Nat
  | [], acc => some acc
  | c :: rest, acc =>
      if c.isDigit then digitsToNatAux rest (10 * acc + (c.toNat - 48))
      else none

/-- Value of a non-empty all-digit character run, `none` otherwise. -/
def digitsToNat : List Char → Option Nat
  | [] => none
  | cs => digitsToNatAux cs 0

/-- Leading and trailing whitespace removal, as Python `int` applies to
its string argument. -/
def pyStrip (cs : List Char) : List Char :=
  ((cs.dropWhile Char.isWhitespace).reverse.dropWhile Char.isWhitespace).reverse

/-- Python `int(s)` on a string: strips whitespace, allows one optional
sign, and requires at least one decimal digit; raises `ValueError`
otherwise (in particular on the empty string). -/
def pyInt (s : String) : Except PyErr Int :=
  match pyStrip s.toList with
  | [] => .error .valueError
  | '+' :: rest =>
      match digitsToNat rest with
      | some n => .ok (Int.ofNat n)
      | none => .error .valueError
  | '-' :: rest =>
      match digitsToNat rest with
      | some n => .ok (-(Int.ofNat n))
      | none => .error .valueError
  | cs =>
      match digitsToNat cs with
      | some n => .ok (Int.ofNat n)
      | none => .error .valueError

/-- Python list indexing `l[i]`: a negative index counts from the end;
an index outside `-len .. len-1` raises `IndexError`. -/
def pyListIndex (l : List JVal) (i : Int) : Except PyErr JVal :=
  let j : Int := if i < 0 then i + l.length else i
  if j < 0 then .error .indexError
  else
    match l.get? j.toNat with
    | some v => .ok v
    | none => .error .indexError

/-- `datetime.datetime`, modelled to ISO-8601 precision: a datetime is
identified with its `isoformat` string, which is exactly the precision
at which both backends store and compare it. -/
structure PyDatetime where
  iso : String
deriving DecidableEq, Repr

/-- `datetime.isoformat()`. -/
def PyDatetime.isoformat (d : PyDatetime) : String := d.iso

/-- `datetime.fromisoformat(s)`: on strings produced by `isoformat`
(the only strings the cache ever stores) it inverts `isoformat`. -/
def PyDatetime.fromisoformat (s : String) : PyDatetime := ⟨s⟩

/-- `CachedVote` from `cache.py`: the stored vote record. -/
structure CachedVote where
  number : Int
  id : Int
  time : PyDatetime
  site : String
deriving DecidableEq, Repr

/-- The fields of `BaseVotePayload` that `cache.py` reads
(`payload.user_id`, `payload.time`, `payload.SITE`); the `raw` field is
only logged and is omitted. -/
structure BaseVotePayload where
  user_id : Int
  time : PyDatetime
  SITE : String
deriving DecidableEq, Repr

/-- One row of the sqlite table
`votes(number INT PRIMARY KEY, user_id INT, time TEXT, site TEXT)`. -/
structure SqlRow where
  number : Int
  user_id : Int
  time : String
  site : String
deriving DecidableEq, Repr

/-- The filesystem state owned by the cache.  `numberTxt` is the text
content of `toppy_vote_cache/number.txt` when the file exists,
`votesJson` the JSON value held by `toppy_vote_cache/votes.json`, and
`votesTable` the rows of the `votes` table (in rowid order) once the
table has been created inside `votes.db`. -/
structure FS where
  rootDir : Bool
  numberTxt : Option String
  votesJson : Option JVal
  dbFile : Bool
  votesTable : Option (List SqlRow)

/-- A storage root on which nothing has ever been created. -/
def freshFS : FS :=
  { rootDir := false, numberTxt := none, votesJson := none,
    dbFile := false, votesTable := none }

/-- The root-initialisation part of `AbstractDatabase.connect`:
`mkdir('toppy_vote_cache')` when the directory is absent, then
`mkfile('toppy_vote_cache/number.txt')` when the counter file is
absent.  `mkfile` opens the file in mode `'w'` and closes it at once,
so a freshly created counter file is empty — no `"0"` is written. -/
def ensureRootStep (fs : FS) : FS :=
  let fs1 := if fs.rootDir then fs else { fs with rootDir := true }
  if fs1.numberTxt.isSome then fs1 else { fs1 with numberTxt := some "" }

/-- Reading `toppy_vote_cache/number.txt` and applying `int` to its
content, as the tail of `AbstractDatabase.connect` does. -/
def loadCounter (fs : FS) : Except PyErr Int :=
  match fs.numberTxt with
  | none => .error .fileNotFoundError
  | some c => pyInt c

/-- `AbstractDatabase.connect`: root initialisation followed by
loading the counter into `self.number`.  Returns the new filesystem
state together with the parsed counter, or the exception raised. -/
def abstractConnect (fs : FS) : FS × Except PyErr Int :=
  let fs1 := ensureRootStep fs
  (fs1, loadCounter fs1)

/-- `AbstractDatabase.insert`: `self.number += 1`, then
`aiofiles.open('toppy_vote_cache/number.txt')` — the mode argument is
omitted, so the file is opened for reading — and `f.write(...)`.  The
write on a read-mode handle raises `io.UnsupportedOperation` (or the
open raises `FileNotFoundError` when the file is missing), so the
counter file is never modified; only the in-memory increment, which
happens first, survives. -/
def abstractInsert (fs : FS) (number : Int) : Int × Except PyErr Unit :=
  let number := number + 1
  match fs.numberTxt with
  | none => (number, .error .fileNotFoundError)
  | some _ => (number, .error .unsupportedOperation)

/-- In-memory state of a `JSONDatabase` instance: just `self.number`. -/
structure JSONDatabase where
  number : Int
deriving DecidableEq, Repr

/-- In-memory state of a `SQLiteDatabase` instance: `self.number` and
whether `self.conn` has been set by `connect` (it is `MISSING` before). -/
structure SQLiteDatabase where
  number : Int
  connected : Bool
deriving DecidableEq, Repr

/-- The 4-element list `[self.number, payload.user_id,
payload.time.isoformat(), payload.SITE]` appended by
`JSONDatabase.insert`. -/
def voteRow (n : Int) (p : BaseVotePayload) : JVal :=
  .jarr [.jnum n, .jnum p.user_id, .jstr p.time.isoformat, .jstr p.SITE]

/-- `JSONDatabase.connect`: `super().connect()`, then creation of
`votes.json` holding `json.dumps([])` when the file is absent. -/
def JSONDatabase.connect (st : JSONDatabase) (fs : FS) :
    FS × JSONDatabase × Except PyErr Unit :=
  let fs1 := ensureRootStep fs
  match loadCounter fs1 with
  | .error e => (fs1, st, .error e)
  | .ok n =>
      let fs2 :=
        if fs1.votesJson.isSome then fs1
        else { fs1 with votesJson := some (.jarr []) }
      (fs2, ⟨n⟩, .ok ())

/-- `JSONDatabase.insert`: reads `votes.json` into `text`, parses it,
appends the new row to the parsed list in memory, then writes
`json.dumps(text, indent=4)` back — the OLD text, re-encoded as a JSON
string, not the updated list — and finally runs
`AbstractDatabase.insert`, which raises. -/
def JSONDatabase.insert (st : JSONDatabase) (fs : FS) (payload : BaseVotePayload) :
    FS × JSONDatabase × Except PyErr Unit :=
  match fs.votesJson with
  | none => (fs, st, .error .fileNotFoundError)
  | some v =>
      let text := dumps v
      -- data = json.loads(text); the parsed content of the file is v
      match v with
      | .jarr l =>
          let _data := l ++ [voteRow st.number payload]
          -- dumped = json.dumps(text, indent=4): serialises `text`
          let fs1 := { fs with votesJson := some (.jstr text) }
          let (n, e) := abstractInsert fs1 st.number
          (fs1, ⟨n⟩, e)
      | _ =>
          -- data.append on a non-list raises before any write
          (fs, st, .error .attributeError)

/-- Decoding of one stored JSON row into a `CachedVote`, as
`CachedVote(data[0], data[1], datetime.fromisoformat(data[2]), data[3])`
performs it; rows of fewer than four elements raise `IndexError`, and
element types other than the ones the cache writes raise `TypeError`. -/
def decodeVote : JVal → Except PyErr CachedVote
  | .jarr (.jnum n :: .jnum i :: .jstr t :: .jstr s :: _) =>
      .ok ⟨n, i, PyDatetime.fromisoformat t, s⟩
  | .jarr (_ :: _ :: _ :: _ :: _) => .error .typeError
  | .jarr _ => .error .indexError
  | _ => .error .typeError

/-- `JSONDatabase.fetchone`: reads the file and evaluates
`json.loads(text)[number]` — a positional index into the parsed value,
with Python semantics (negative indices count from the end, and an
out-of-range index raises `IndexError` rather than returning `None`).
When the file holds a string, indexing yields a one-character string on
which the later `data[1]` raises `IndexError`; when it holds a number,
subscripting raises `TypeError`. -/
def JSONDatabase.fetchone (fs : FS) (number : Int) :
    Except PyErr (Option CachedVote) :=
  match fs.votesJson with
  | none => .error .fileNotFoundError
  | some (.jarr l) => do
      let d ← pyListIndex l number
      let cv ← decodeVote d
      .ok (some cv)
  | some (.jstr _) => .error .indexError
  | some (.jnum _) => .error .typeError

/-- `JSONDatabase.fetchmany`: reads the file, parses it and decodes
every element of the resulting list.  Iterating a stored string yields
its characters, on which `d[2]` raises `IndexError` (an empty string
yields the empty list); iterating a number raises `TypeError`. -/
def JSONDatabase.fetchmany (fs : FS) : Except PyErr (List CachedVote) :=
  match fs.votesJson with
  | none => .error .fileNotFoundError
  | some (.jarr l) => l.mapM decodeVote
  | some (.jstr s) => if s.isEmpty then .ok [] else .error .indexError
  | some (.jnum _) => .error .typeError

/-- `SQLiteDatabase.connect`: `super().connect()`, then
`mkfile('toppy_vote_cache/votes.db')` when the file is absent,
`aiosqlite.connect` (which also creates the file when absent), and
the guarded (`IF NOT EXISTS`) creation of the `votes`
table followed by a commit. -/
def SQLiteDatabase.connect (st : SQLiteDatabase) (fs : FS) :
    FS × SQLiteDatabase × Except PyErr Unit :=
  let fs1 := ensureRootStep fs
  match loadCounter fs1 with
  | .error e => (fs1, st, .error e)
  | .ok n =>
      let fs2 := if fs1.dbFile then fs1 else { fs1 with dbFile := true }
      let fs3 :=
        if fs2.votesTable.isSome then fs2
        else { fs2 with votesTable := some [] }
      (fs3, ⟨n, true⟩, .ok ())

/-- `SQLiteDatabase.insert`: inserts the row
`(self.number, payload.user_id, payload.time.isoformat(), payload.SITE)`
into the `votes` table and commits; the `number` column's PRIMARY KEY
constraint rejects a duplicate with an `IntegrityError` before anything
is written.  After the commit, `super().insert()` runs and raises (see
`abstractInsert`), leaving the committed row in place.  Before
`connect`, `self.conn` is `MISSING` and using it raises. -/
def SQLiteDatabase.insert (st : SQLiteDatabase) (fs : FS) (payload : BaseVotePayload) :
    FS × SQLiteDatabase × Except PyErr Unit :=
  if st.connected = false then (fs, st, .error .attributeError)
  else
    match fs.votesTable with
    | none => (fs, st, .error .operationalError)
    | some rows =>
        if rows.any (fun r => r.number == st.number) then
          (fs, st, .error .integrityError)
        else
          let row : SqlRow :=
            ⟨st.number, payload.user_id, payload.time.isoformat, payload.SITE⟩
          let fs1 := { fs with votesTable := some (rows ++ [row]) }
          let (n, e) := abstractInsert fs1 st.number
          (fs1, ⟨n, st.connected⟩, e)

/-- `SQLiteDatabase.fetchone`: `SELECT * FROM votes WHERE number = ?`,
`None` when no row matches, otherwise the row mapped into a
`CachedVote`. -/
def SQLiteDatabase.fetchone (st : SQLiteDatabase) (fs : FS) (number : Int) :
    Except PyErr (Option CachedVote) :=
  if st.connected = false then .error .attributeError
  else
    match fs.votesTable with
    | none => .error .operationalError
    | some rows =>
        match rows.find? (fun r => r.number == number) with
        | none => .ok none
        | some r =>
            .ok (some ⟨r.number, r.user_id,
                       PyDatetime.fromisoformat r.time, r.site⟩)

/-- `SQLiteDatabase.fetchmany`: `SELECT * FROM votes`, every row mapped
into a `CachedVote` in rowid (insertion) order. -/
def SQLiteDatabase.fetchmany (st : SQLiteDatabase) (fs : FS) :
    Except PyErr (List CachedVote) :=
  if st.connected = false then .error .attributeError
  else
    match fs.votesTable with
    | none => .error .operationalError
    | some rows =>
        .ok (rows.map (fun r =>
          ⟨r.number, r.user_id, PyDatetime.fromisoformat r.time, r.site⟩))

/-- The JSON rows of a store that recorded the payloads `ps` in order,
the payload at position `m` carrying sequence number `i + m`. -/
def jsonRows (i : Int) : List BaseVotePayload → List JVal
  | [] => []
  | p :: ps => voteRow i p :: jsonRows (i + 1) ps

/-- The sqlite row written for payload `p` under sequence number `n`. -/
def sqlRowOf (n : Int) (p : BaseVotePayload) : SqlRow :=
  ⟨n, p.user_id, p.time.isoformat, p.SITE⟩

/-- The table rows of a store that recorded the payloads `ps` in order,
the payload at position `m` carrying sequence number `i + m`. -/
def sqlRows (i : Int) : List BaseVotePayload → List SqlRow
  | [] => []
  | p :: ps => sqlRowOf i p :: sqlRows (i + 1) ps

/-- A document-backend storage root holding the records of the payloads
`ps` with sequences `0 .. ps.length - 1` and a matching counter file. -/
def jsonStoreFS (ps : List BaseVotePayload) : FS :=
  { rootDir := true, numberTxt := some (toString ps.length),
    votesJson := some (.jarr (jsonRows 0 ps)),
    dbFile := false, votesTable := none }

/-- A relational-backend storage root holding the rows of the payloads
`ps` with sequences `0 .. ps.length - 1` and a matching counter file. -/
def sqlStoreFS (ps : List BaseVotePayload) : FS :=
  { rootDir := true, numberTxt := some (toString ps.length),
    votesJson := none, dbFile := true, votesTable := some (sqlRows 0 ps) }

/-- The `CachedVote` that either backend reconstructs for payload `p`
stored under sequence number `n`. -/
def cvOf (n : Int) (p : BaseVotePayload) : CachedVote :=
  ⟨n, p.user_id, p.time, p.SITE⟩

/-- Concrete vote event used in scenario evaluations. -/
def evA : BaseVotePayload := ⟨1, ⟨"2024-01-01T00:00:00+00:00"⟩, "a"⟩

/-- Second concrete vote event used in scenario evaluations. -/
def evB : BaseVotePayload := ⟨2, ⟨"2024-01-02T00:00:00+00:00"⟩, "b"⟩

/-- The round-trip vote event of the spec: `voterId=42, site="example"`. -/
def ev42 : BaseVotePayload := ⟨42, ⟨"2024-03-04T05:06:07+00:00"⟩, "example"⟩

theorem jsonRows_length (ps : List BaseVotePayload) :
    ∀ i : Int, (jsonRows i ps).length = ps.length := by
  induction ps with
  | nil => intro i; rfl
  | cons p ps ih => intro i; simp [jsonRows, ih]

theorem jsonRows_get? (ps : List BaseVotePayload) :
    ∀ (i : Int) (j : Nat),
      (jsonRows i ps).get? j = (ps.get? j).map (fun p => voteRow (i + j) p) := by
  induction ps with
  | nil => intro i j; simp [jsonRows]
  | cons p ps ih =>
      intro i j
      cases j with
      | zero => simp [jsonRows]
      | succ j =>
          have h : i + 1 + (j : Int) = i + ((j + 1 : Nat) : Int) := by
            push_cast; ring
          simp only [jsonRows, List.get?, ih, h]

theorem sqlRows_find? (ps : List BaseVotePayload) :
    ∀ (i k : Int),
      (sqlRows i ps).find? (fun r => r.number == k) =
        if i ≤ k then (ps.get? (k - i).toNat).map (fun p => sqlRowOf k p)
        else none := by
  induction ps with
  | nil =>
      intro i k
      by_cases h : i ≤ k <;> simp [sqlRows, h]
  | cons p ps ih =>
      intro i k
      by_cases hik : i = k
      · subst hik
        simp [sqlRows, sqlRowOf, List.find?]
      · have hbeq : (((sqlRowOf i p).number == k) = false) := by
          simp [sqlRowOf]; omega
        rw [sqlRows, List.find?_cons]
        simp only [hbeq]
        rw [ih (i + 1) k]
        by_cases h : i ≤ k
        · have h1 : i + 1 ≤ k := by omega
          have h2 : (k - i).toNat = (k - (i + 1)).toNat + 1 := by omega
          simp [h, h1, h2]
        · have h1 : ¬ i + 1 ≤ k := by omega
          simp [h, h1]

/-- `decodeVote` inverts the row encoding either backend writes. -/
theorem decodeVote_voteRow (n : Int) (p : BaseVotePayload) :
    decodeVote (voteRow n p) = .ok (cvOf n p) := rfl

/-- C10: on a brand-new storage root the first `connect()` of either
backend creates `number.txt` as an empty file (`mkfile` writes no
content) and then fails with an integer-parse error (`int('')` raises
`ValueError`), leaving the in-memory counter untouched instead of
initialising it to 0. -/
theorem C10_fresh_connect_parse_failure :
    JSONDatabase.connect ⟨0⟩ freshFS
      = ({ rootDir := true, numberTxt := some "", votesJson := none,
           dbFile := false, votesTable := none }, ⟨0⟩, .error .valueError)
    ∧ SQLiteDatabase.connect ⟨0, false⟩ freshFS
      = ({ rootDir := true, numberTxt := some "", votesJson := none,
           dbFile := false, votesTable := none }, ⟨0, false⟩, .error .valueError)
    ∧ pyInt "" = .error .valueError :=
  ⟨rfl, rfl, rfl⟩

/-- C8: evaluation at the failing input.  The root-initialisation step
of `connect()` on a fresh root creates `number.txt` with EMPTY content,
not `"0"`, and the connect sequence then fails parsing it; the claimed
initial content `"0"` is never written. -/
theorem C8_root_init_writes_empty_file :
    (ensureRootStep freshFS).numberTxt = some ""
    ∧ (ensureRootStep freshFS).numberTxt ≠ some "0"
    ∧ loadCounter (ensureRootStep freshFS) = .error .valueError := by
  refine ⟨rfl, ?_, rfl⟩
  decide

/-- C3: evaluation at the failing input.  `insert()` increments the
in-memory counter, but the counter file is opened in read mode, so the
write raises `UnsupportedOperation` and `number.txt` keeps its prior
content in both backends — the new value is never persisted. -/
theorem C3_counter_never_persisted :
    (JSONDatabase.insert ⟨0⟩ (jsonStoreFS []) evA).2.2 = .error .unsupportedOperation
    ∧ (JSONDatabase.insert ⟨0⟩ (jsonStoreFS []) evA).2.1.number = 1
    ∧ (JSONDatabase.insert ⟨0⟩ (jsonStoreFS []) evA).1.numberTxt = some "0"
    ∧ (SQLiteDatabase.insert ⟨0, true⟩ (sqlStoreFS []) evA).2.2 = .error .unsupportedOperation
    ∧ (SQLiteDatabase.insert ⟨0, true⟩ (sqlStoreFS []) evA).2.1.number = 1
    ∧ (SQLiteDatabase.insert ⟨0, true⟩ (sqlStoreFS []) evA).1.numberTxt = some "0" :=
  ⟨rfl, rfl, rfl, rfl, rfl, rfl⟩

/-- C4: evaluation at the failing input.  A document-backend insert on
an empty store leaves `votes.json` holding the JSON STRING `"[]"` (the
old file text re-encoded by `json.dumps(text, indent=4)`), not the
array extended with the new 4-element tuple. -/
theorem C4_insert_serialises_old_text :
    (JSONDatabase.insert ⟨0⟩ (jsonStoreFS []) evA).1.votesJson = some (.jstr "[]")
    ∧ (JSONDatabase.insert ⟨0⟩ (jsonStoreFS []) evA).1.votesJson
        ≠ some (.jarr (jsonRows 0 [] ++ [voteRow 0 evA])) := by
  refine ⟨rfl, ?_⟩
  intro h
  rw [show (JSONDatabase.insert ⟨0⟩ (jsonStoreFS []) evA).1.votesJson
        = some (.jstr "[]") from rfl] at h
  simp at h

/-- C1: evaluation at the failing inputs.  `connect()` on a fresh
storage root raises a `ValueError` in both backends (so the claimed
scenario cannot even start), and even on a repaired root with counter
content `"0"`, after one document-backend insert `fetchMany()` raises
instead of returning one record with sequence 0. -/
theorem C1_sequence_invariant_broken :
    (JSONDatabase.connect ⟨0⟩ freshFS).2.2 = .error .valueError
    ∧ (SQLiteDatabase.connect ⟨0, false⟩ freshFS).2.2 = .error .valueError
    ∧ JSONDatabase.fetchmany (JSONDatabase.insert ⟨0⟩ (jsonStoreFS []) evA).1
        = .error .indexError :=
  ⟨rfl, rfl, rfl⟩

/-- C6: evaluation at the failing input.  After the same single event,
the relational backend's `fetchMany()` returns the one stored record
while the document backend's raises, so the two backends are not
field-wise equal. -/
theorem C6_backends_disagree :
    SQLiteDatabase.fetchmany (SQLiteDatabase.insert ⟨0, true⟩ (sqlStoreFS []) evA).2.1
        (SQLiteDatabase.insert ⟨0, true⟩ (sqlStoreFS []) evA).1
      = .ok [cvOf 0 evA]
    ∧ JSONDatabase.fetchmany (JSONDatabase.insert ⟨0⟩ (jsonStoreFS []) evA).1
      = .error .indexError :=
  ⟨rfl, rfl⟩

/-- C7: evaluation at the failing inputs.  A failing `connect()` on a
fresh root leaves the created root directory and empty counter file
behind, and a failing relational `insert()` leaves the committed row
behind — failed operations do change persisted state. -/
theorem C7_failed_ops_change_state :
    (JSONDatabase.connect ⟨0⟩ freshFS).2.2 = .error .valueError
    ∧ (JSONDatabase.connect ⟨0⟩ freshFS).1.rootDir = true
    ∧ (JSONDatabase.connect ⟨0⟩ freshFS).1.numberTxt = some ""
    ∧ freshFS.rootDir = false
    ∧ freshFS.numberTxt = none
    ∧ (SQLiteDatabase.insert ⟨0, true⟩ (sqlStoreFS []) evA).2.2
        = .error .unsupportedOperation
    ∧ (SQLiteDatabase.insert ⟨0, true⟩ (sqlStoreFS []) evA).1.votesTable
        = some [sqlRowOf 0 evA] :=
  ⟨rfl, rfl, rfl, rfl, rfl, rfl, rfl⟩

/-- C2, counterexample: on a document-backend store holding one record
with sequence 0, `fetchOne(1)` (k = N) raises `IndexError` rather than
returning the claimed empty result. -/
theorem C2_counterexample_fetchone_raises :
    JSONDatabase.fetchone (jsonStoreFS [evA]) 1 = .error .indexError
    ∧ JSONDatabase.fetchone (jsonStoreFS [evA]) 1 ≠ .ok none := by
  refine ⟨rfl, ?_⟩
  intro h
  rw [show JSONDatabase.fetchone (jsonStoreFS [evA]) 1
        = .error .indexError from rfl] at h
  simp at h

/-- C5: evaluation at the failing input.  Inserting the event
`voterId=42, site="example"` into a connected document-backend store
stores nothing (the file becomes a JSON string), and fetching it back
by its assigned sequence number 0 raises instead of yielding the
record — the round-trip fails for the document backend.  (The
relational backend's round-trip does hold: see
`sql_insert_fetchone_roundtrip`.) -/
theorem C5_json_roundtrip_fails :
    (JSONDatabase.insert ⟨0⟩ (jsonStoreFS []) ev42).2.2 = .error .unsupportedOperation
    ∧ JSONDatabase.fetchone (JSONDatabase.insert ⟨0⟩ (jsonStoreFS []) ev42).1 0
        = .error .indexError :=
  ⟨rfl, rfl⟩

/-- Relational `fetchone` on a store holding `ps` under sequences
`0 .. ps.length - 1`: a keyed lookup that returns `none` (never an
error) outside the stored range. -/
theorem sql_fetchone_store (ps : List BaseVotePayload) (k : Int) :
    SQLiteDatabase.fetchone ⟨(ps.length : Int), true⟩ (sqlStoreFS ps) k
      = if 0 ≤ k then .ok ((ps.get? k.toNat).map (cvOf k)) else .ok none := by
  unfold SQLiteDatabase.fetchone sqlStoreFS
  simp only [Bool.true_eq_false, if_false]
  rw [sqlRows_find? ps 0 k]
  simp only [Int.sub_zero]
  by_cases h : 0 ≤ k
  · simp only [h, if_true]
    cases hg : ps.get? k.toNat with
    | none => simp
    | some p => simp [sqlRowOf, cvOf, PyDatetime.fromisoformat, PyDatetime.isoformat]
  · simp [h]

/-- Document `fetchone` on a store holding `ps` under sequences
`0 .. ps.length - 1`: a positional Python index into the array, with
negative indices counting from the end and `IndexError` outside
`-N .. N-1`. -/
theorem json_fetchone_store (ps : List BaseVotePayload) (k : Int) :
    JSONDatabase.fetchone (jsonStoreFS ps) k
      = (if (if k < 0 then k + (ps.length : Int) else k) < 0 then
           .error .indexError
         else
           match ps.get? (if k < 0 then k + (ps.length : Int) else k).toNat with
           | some p => .ok (some (cvOf (if k < 0 then k + (ps.length : Int) else k) p))
           | none => .error .indexError) := by
  unfold JSONDatabase.fetchone jsonStoreFS pyListIndex
  simp only [jsonRows_length]
  set j : Int := if k < 0 then k + (ps.length : Int) else k with hj
  by_cases hneg : j < 0
  · simp only [hneg, if_true]
    rfl
  · simp only [hneg, if_false]
    rw [jsonRows_get? ps 0 j.toNat]
    have h0 : (0 : Int) + (j.toNat : Int) = j := by omega
    rw [h0]
    cases hg : ps.get? j.toNat with
    | none => rfl
    | some p => rfl

/-- C2, amended: on a store holding N records with stored sequences
`0..N-1`, the relational backend's `fetchOne(k)` returns the record
inserted k-th for `0 <= k < N` and an empty result (`None`, no error)
for `k >= N` or `k < 0`; the document backend returns the k-th record
for `0 <= k < N`, but for `k >= N` or `k < -N` it raises `IndexError`
instead of returning an empty result, and for `-N <= k < 0` it returns
the record at Python list position `N + k`. -/
theorem C2_amended_fetchone_semantics (ps : List BaseVotePayload) (k : Int) :
    (0 ≤ k →
      SQLiteDatabase.fetchone ⟨(ps.length : Int), true⟩ (sqlStoreFS ps) k
        = .ok ((ps.get? k.toNat).map (cvOf k))
      ∧ JSONDatabase.fetchone (jsonStoreFS ps) k
        = (match ps.get? k.toNat with
           | some p => .ok (some (cvOf k p))
           | none => .error .indexError))
    ∧ (k < 0 →
      SQLiteDatabase.fetchone ⟨(ps.length : Int), true⟩ (sqlStoreFS ps) k = .ok none
      ∧ JSONDatabase.fetchone (jsonStoreFS ps) k
        = (if k + (ps.length : Int) < 0 then .error .indexError
           else
             match ps.get? (k + (ps.length : Int)).toNat with
             | some p => .ok (some (cvOf (k + (ps.length : Int)) p))
             | none => .error .indexError)) := by
  constructor
  · intro hk
    have hknn : ¬ k < 0 := by omega
    constructor
    · rw [sql_fetchone_store]
      simp [hk]
    · rw [json_fetchone_store]
      simp [hknn]
  · intro hk
    constructor
    · rw [sql_fetchone_store]
      have : ¬ 0 ≤ k := by omega
      simp [this]
    · rw [json_fetchone_store]
      simp [hk]

/-- The round-trip does hold for the relational backend: for any
connected store whose table does not yet use the current counter
value, inserting an event (the insert raises after committing the row)
and fetching by the assigned sequence number yields a record with the
event's `voterId`, `site`, and timestamp to ISO-8601 precision. -/
theorem sql_insert_fetchone_roundtrip (fs : FS) (st : SQLiteDatabase)
    (p : BaseVotePayload) (rows : List SqlRow)
    (hconn : st.connected = true)
    (htab : fs.votesTable = some rows)
    (hfree : rows.any (fun r => r.number == st.number) = false) :
    SQLiteDatabase.fetchone (SQLiteDatabase.insert st fs p).2.1
        (SQLiteDatabase.insert st fs p).1 st.number
      = .ok (some (cvOf st.number p)) := by
  have hfind : rows.find? (fun r => r.number == st.number) = none := by
    rw [List.find?_eq_none]
    intro x hx
    exact List.any_eq_false.mp hfree x hx
  unfold SQLiteDatabase.insert
  simp only [hconn, Bool.true_eq_false, if_false, htab, hfree, abstractInsert]
  unfold SQLiteDatabase.fetchone
  simp [hconn, List.find?_append, hfind, List.find?, cvOf,
    PyDatetime.fromisoformat, PyDatetime.isoformat]

/-- Witness for the amended C2 theorem at a concrete two-record store,
with an in-range index and an out-of-range negative index. -/
theorem C2_amended_fetchone_semantics_witness :
    (SQLiteDatabase.fetchone ⟨2, true⟩ (sqlStoreFS [evA, evB]) 1
        = .ok (some (cvOf 1 evB))
      ∧ JSONDatabase.fetchone (jsonStoreFS [evA, evB]) 1
        = .ok (some (cvOf 1 evB)))
    ∧ (SQLiteDatabase.fetchone ⟨2, true⟩ (sqlStoreFS [evA, evB]) (-3) = .ok none
      ∧ JSONDatabase.fetchone (jsonStoreFS [evA, evB]) (-3)
        = .error .indexError) :=
  ⟨(C2_amended_fetchone_semantics [evA, evB] 1).1 (by norm_num),
   (C2_amended_fetchone_semantics [evA, evB] (-3)).2 (by norm_num)⟩

/-- The spec's event `voterId=42, site="example"` round-trips through
the relational backend under its assigned sequence number 0. -/
theorem sql_insert_fetchone_roundtrip_witness :
    SQLiteDatabase.fetchone (SQLiteDatabase.insert ⟨0, true⟩ (sqlStoreFS []) ev42).2.1
        (SQLiteDatabase.insert ⟨0, true⟩ (sqlStoreFS []) ev42).1 0
      = .ok (some (cvOf 0 ev42)) :=
  sql_insert_fetchone_roundtrip (sqlStoreFS []) ⟨0, true⟩ ev42 [] rfl rfl rfl

theorem ensureRootStep_rootDir (fs : FS) : (ensureRootStep fs).rootDir = true := by
  rcases fs with ⟨rd, nt, vj, db, vt⟩
  cases rd <;> cases nt <;> rfl

theorem ensureRootStep_numberTxt_isSome (fs : FS) :
    (ensureRootStep fs).numberTxt.isSome = true := by
  rcases fs with ⟨rd, nt, vj, db, vt⟩
  cases rd <;> cases nt <;> rfl

theorem ensureRootStep_id (fs : FS) (h1 : fs.rootDir = true)
    (h2 : fs.numberTxt.isSome = true) : ensureRootStep fs = fs := by
  rcases fs with ⟨rd, nt, vj, db, vt⟩
  subst h1
  cases nt with
  | none => simp at h2
  | some c => rfl

/-- A successful `JSONDatabase.connect` leaves a state whose root,
counter file and document file all exist, and loads the counter the
file holds. -/
theorem json_connect_ok (st st' : JSONDatabase) (fs fs1 : FS)
    (h : JSONDatabase.connect st fs = (fs1, st', .ok ())) :
    fs1.rootDir = true ∧ fs1.numberTxt.isSome = true
    ∧ fs1.votesJson.isSome = true
    ∧ loadCounter fs1 = .ok st'.number := by
  rcases fs with ⟨rd, nt, vj, db, vt⟩
  unfold JSONDatabase.connect at h
  dsimp only at h
  split at h
  · simp at h
  · rename_i n heq
    simp only [Prod.mk.injEq] at h
    obtain ⟨hfs, hst, -⟩ := h
    subst hfs
    cases rd <;> cases nt <;> cases vj <;>
      first
        | exact Except.noConfusion heq
        | (refine ⟨rfl, rfl, rfl, ?_⟩; rw [← hst]; exact heq)

/-- A successful `SQLiteDatabase.connect` leaves a state whose root,
counter file, database file and table all exist, loads the counter the
file holds, and sets the connection handle. -/
theorem sql_connect_ok (st st' : SQLiteDatabase) (fs fs1 : FS)
    (h : SQLiteDatabase.connect st fs = (fs1, st', .ok ())) :
    fs1.rootDir = true ∧ fs1.numberTxt.isSome = true
    ∧ fs1.dbFile = true ∧ fs1.votesTable.isSome = true
    ∧ loadCounter fs1 = .ok st'.number ∧ st'.connected = true := by
  rcases fs with ⟨rd, nt, vj, db, vt⟩
  unfold SQLiteDatabase.connect at h
  dsimp only at h
  split at h
  · simp at h
  · rename_i n heq
    simp only [Prod.mk.injEq] at h
    obtain ⟨hfs, hst, -⟩ := h
    subst hfs
    cases rd <;> cases nt <;> cases db <;> cases vt <;>
      first
        | exact Except.noConfusion heq
        | (refine ⟨rfl, rfl, rfl, rfl, ?_, by rw [← hst]⟩; rw [← hst]; exact heq)

/-- C9: calling `connect()` twice in a row is equivalent to calling it
once, for both backends: when the first `connect()` succeeds, the
second returns exactly the same filesystem and in-memory state (the
counter is reloaded from the unchanged persisted value, and the
document file / table creation is guarded, so nothing is recreated),
and an `insert()` performed after the second `connect()` behaves
exactly as one performed after the first. -/
theorem C9_connect_twice_equivalent (fs gs fs1 gs1 : FS)
    (stj0 stj1 : JSONDatabase) (sts0 sts1 : SQLiteDatabase) (p : BaseVotePayload)
    (hj : JSONDatabase.connect stj0 fs = (fs1, stj1, .ok ()))
    (hs : SQLiteDatabase.connect sts0 gs = (gs1, sts1, .ok ())) :
    JSONDatabase.connect stj1 fs1 = (fs1, stj1, .ok ())
    ∧ SQLiteDatabase.connect sts1 gs1 = (gs1, sts1, .ok ())
    ∧ JSONDatabase.insert stj1 (JSONDatabase.connect stj1 fs1).1 p
        = JSONDatabase.insert stj1 fs1 p
    ∧ SQLiteDatabase.insert sts1 (SQLiteDatabase.connect sts1 gs1).1 p
        = SQLiteDatabase.insert sts1 gs1 p := by
  obtain ⟨h1, h2, h3, h4⟩ := json_connect_ok stj0 stj1 fs fs1 hj
  rcases sts1 with ⟨n1, c1⟩
  obtain ⟨g1, g2, g3, g4, g5, g6⟩ := sql_connect_ok sts0 ⟨n1, c1⟩ gs gs1 hs
  dsimp only at g6
  subst g6
  have hjc : JSONDatabase.connect stj1 fs1 = (fs1, stj1, .ok ()) := by
    unfold JSONDatabase.connect
    dsimp only
    rw [ensureRootStep_id fs1 h1 h2, h4]
    simp only [h3, if_true]
  have hsc : SQLiteDatabase.connect ⟨n1, true⟩ gs1 = (gs1, ⟨n1, true⟩, .ok ()) := by
    unfold SQLiteDatabase.connect
    dsimp only
    rw [ensureRootStep_id gs1 g1 g2, g5]
    simp only [g3, g4, if_true]
  refine ⟨hjc, hsc, ?_, ?_⟩
  · rw [hjc]
  · rw [hsc]

/-- Witness for C9 on concrete initialised stores: a three-record
document store with counter `"3"` and a one-record relational store
with counter `"1"`. -/
theorem C9_connect_twice_equivalent_witness :
    JSONDatabase.connect ⟨3⟩ (jsonStoreFS [evA, evB, evA])
      = (jsonStoreFS [evA, evB, evA], ⟨3⟩, .ok ())
    ∧ SQLiteDatabase.connect ⟨1, true⟩ (sqlStoreFS [evA])
      = (sqlStoreFS [evA], ⟨1, true⟩, .ok ())
    ∧ JSONDatabase.insert ⟨3⟩ (JSONDatabase.connect ⟨3⟩ (jsonStoreFS [evA, evB, evA])).1 evB
      = JSONDatabase.insert ⟨3⟩ (jsonStoreFS [evA, evB, evA]) evB
    ∧ SQLiteDatabase.insert ⟨1, true⟩ (SQLiteDatabase.connect ⟨1, true⟩ (sqlStoreFS [evA])).1 evB
      = SQLiteDatabase.insert ⟨1, true⟩ (sqlStoreFS [evA]) evB :=
  C9_connect_twice_equivalent (jsonStoreFS [evA, evB, evA]) (sqlStoreFS [evA])
    (jsonStoreFS [evA, evB, evA]) (sqlStoreFS [evA])
    ⟨0⟩ ⟨3⟩ ⟨0, false⟩ ⟨1, true⟩ evB rfl rfl
